import Mathlib

/-!
Verification of the cost model and scenario comparator of the Olympic Trip
Optimizer (`app.py`).

The app's arithmetic is Python float arithmetic over values the spec calls
non-negative reals; we embed it over `ℚ`, the standard exact idealization.
Integer quantities (`nights`, `people`) are embedded as `ℤ`.
-/

namespace OlympicTrip

/-- Embeds `trip_miles` (app.py): base round-trip mileage of 360 with the
ferry or 420 all-road, plus user extra miles. -/
def trip_miles (use_ferry : Bool) (extra : ℚ) : ℚ :=
  (if use_ferry then (360 : ℚ) else 420) + extra

/-- The dictionary returned by `cost_breakdown` (app.py), one field per key. -/
structure CostBreakdown where
  rental_base : ℚ
  rental_fees : ℚ
  fuel_cost : ℚ
  lodging_total : ℚ
  park_fee : ℚ
  ferry_total : ℚ
  miles : ℚ
  total : ℚ
  per_person : ℚ

/-- Embeds `cost_breakdown` (app.py): rental days are `nights + 1`; fuel cost
is guarded by `mpg > 0`; the ferry charge applies only when `use_ferry`;
`per_person` divides by `people` only when `people` is nonzero (Python
truthiness of the int). -/
def cost_breakdown (nights : ℤ) (people : ℤ) (use_ferry : Bool) (extra_miles : ℚ)
    (rental_daily : ℚ) (rental_fees_pct : ℚ)
    (lodging_nightly : ℚ) (lodging_fees_total : ℚ)
    (gas_price : ℚ) (mpg : ℚ) (park_fee : ℚ) (ferry_total : ℚ) : CostBreakdown :=
  let days : ℤ := nights + 1
  let rental_base : ℚ := rental_daily * (days : ℚ)
  let rental_fees : ℚ := rental_base * (rental_fees_pct / 100)
  let miles : ℚ := trip_miles use_ferry extra_miles
  let fuel_cost : ℚ := if 0 < mpg then (miles / mpg) * gas_price else 0
  let lodging_total : ℚ := lodging_nightly * (nights : ℚ) + lodging_fees_total
  let total : ℚ := rental_base + rental_fees + fuel_cost + lodging_total + park_fee +
    (if use_ferry then ferry_total else 0)
  let per_person : ℚ := if people ≠ 0 then total / (people : ℚ) else total
  { rental_base := rental_base
    rental_fees := rental_fees
    fuel_cost := fuel_cost
    lodging_total := lodging_total
    park_fee := park_fee
    ferry_total := if use_ferry then ferry_total else 0
    miles := miles
    total := total
    per_person := per_person }

/-- Claim C1: for every input, the `total` returned by `cost_breakdown` equals
the sum of the six itemized components it returns: rental base + rental fees +
fuel + lodging + park fee + ferry. -/
theorem cost_breakdown_total_eq_sum (nights people : ℤ) (use_ferry : Bool)
    (extra_miles rental_daily rental_fees_pct lodging_nightly lodging_fees_total
      gas_price mpg park_fee ferry_total : ℚ) :
    (cost_breakdown nights people use_ferry extra_miles rental_daily rental_fees_pct
        lodging_nightly lodging_fees_total gas_price mpg park_fee ferry_total).total =
      (cost_breakdown nights people use_ferry extra_miles rental_daily rental_fees_pct
        lodging_nightly lodging_fees_total gas_price mpg park_fee ferry_total).rental_base +
      (cost_breakdown nights people use_ferry extra_miles rental_daily rental_fees_pct
        lodging_nightly lodging_fees_total gas_price mpg park_fee ferry_total).rental_fees +
      (cost_breakdown nights people use_ferry extra_miles rental_daily rental_fees_pct
        lodging_nightly lodging_fees_total gas_price mpg park_fee ferry_total).fuel_cost +
      (cost_breakdown nights people use_ferry extra_miles rental_daily rental_fees_pct
        lodging_nightly lodging_fees_total gas_price mpg park_fee ferry_total).lodging_total +
      (cost_breakdown nights people use_ferry extra_miles rental_daily rental_fees_pct
        lodging_nightly lodging_fees_total gas_price mpg park_fee ferry_total).park_fee +
      (cost_breakdown nights people use_ferry extra_miles rental_daily rental_fees_pct
        lodging_nightly lodging_fees_total gas_price mpg park_fee ferry_total).ferry_total := by
  rfl

/-- Claim C2: the concrete ferry scenario (nights 2, travelers 2, ferry, 40
extra miles, 55/day rental, 22% fees, 150/night lodging, 60 one-time fees,
4.50 gas, 30 mpg, 30 park fee, 50 ferry) yields miles 400, rental base 165,
rental fees 36.3, fuel 60, lodging 360, ferry 50, total 701.3, per person
350.65. -/
theorem cost_breakdown_ferry_scenario :
    (cost_breakdown 2 2 true 40 55 22 150 60 4.5 30 30 50).miles = 400 ∧
    (cost_breakdown 2 2 true 40 55 22 150 60 4.5 30 30 50).rental_base = 165 ∧
    (cost_breakdown 2 2 true 40 55 22 150 60 4.5 30 30 50).rental_fees = 36.3 ∧
    (cost_breakdown 2 2 true 40 55 22 150 60 4.5 30 30 50).fuel_cost = 60 ∧
    (cost_breakdown 2 2 true 40 55 22 150 60 4.5 30 30 50).lodging_total = 360 ∧
    (cost_breakdown 2 2 true 40 55 22 150 60 4.5 30 30 50).ferry_total = 50 ∧
    (cost_breakdown 2 2 true 40 55 22 150 60 4.5 30 30 50).total = 701.3 ∧
    (cost_breakdown 2 2 true 40 55 22 150 60 4.5 30 30 50).per_person = 350.65 := by
  norm_num [cost_breakdown, trip_miles]

/-- Claim C3, counterexample: in the same scenario without the ferry the code
returns total 660.3 (= 165 + 36.3 + 69 + 360 + 30 + 0), not the 710.3 the
claim states. -/
theorem cost_breakdown_no_ferry_total_ne :
    (cost_breakdown 2 2 false 40 55 22 150 60 4.5 30 30 50).total ≠ 710.3 := by
  norm_num [cost_breakdown, trip_miles]

/-- Claim C3, amended: with `use_ferry = false` the same scenario yields miles
460, ferry 0, fuel 69, total 660.3, with the rental and lodging components
unchanged (165, 36.3, 360). -/
theorem cost_breakdown_no_ferry_scenario :
    (cost_breakdown 2 2 false 40 55 22 150 60 4.5 30 30 50).miles = 460 ∧
    (cost_breakdown 2 2 false 40 55 22 150 60 4.5 30 30 50).ferry_total = 0 ∧
    (cost_breakdown 2 2 false 40 55 22 150 60 4.5 30 30 50).fuel_cost = 69 ∧
    (cost_breakdown 2 2 false 40 55 22 150 60 4.5 30 30 50).total = 660.3 ∧
    (cost_breakdown 2 2 false 40 55 22 150 60 4.5 30 30 50).rental_base = 165 ∧
    (cost_breakdown 2 2 false 40 55 22 150 60 4.5 30 30 50).rental_fees = 36.3 ∧
    (cost_breakdown 2 2 false 40 55 22 150 60 4.5 30 30 50).lodging_total = 360 := by
  norm_num [cost_breakdown, trip_miles]

/-- Claim C5: the division branches are guarded: zero vehicle efficiency
yields fuel cost 0 (for any other inputs), and zero travelers yields
`per_person = total` (for any other inputs); both are defined results of the
total function, not faults. -/
theorem cost_breakdown_zero_guards (nights people : ℤ) (use_ferry : Bool)
    (extra_miles rental_daily rental_fees_pct lodging_nightly lodging_fees_total
      gas_price mpg park_fee ferry_total : ℚ) :
    (cost_breakdown nights people use_ferry extra_miles rental_daily rental_fees_pct
        lodging_nightly lodging_fees_total gas_price 0 park_fee ferry_total).fuel_cost = 0 ∧
    (cost_breakdown nights 0 use_ferry extra_miles rental_daily rental_fees_pct
        lodging_nightly lodging_fees_total gas_price mpg park_fee ferry_total).per_person =
      (cost_breakdown nights 0 use_ferry extra_miles rental_daily rental_fees_pct
        lodging_nightly lodging_fees_total gas_price mpg park_fee ferry_total).total := by
  constructor
  · simp [cost_breakdown]
  · simp [cost_breakdown]

/-- Claim C6: for every ferry flag and non-negative extra mileage, the planned
distance is (360 if ferry else 420) + extra, and turning the ferry off zeroes
the ferry charge whatever `ferry_total` was entered. -/
theorem trip_miles_formula_and_ferry_off (nights people : ℤ) (use_ferry : Bool)
    (extra_miles rental_daily rental_fees_pct lodging_nightly lodging_fees_total
      gas_price mpg park_fee ferry_total : ℚ) (_h : 0 ≤ extra_miles) :
    (cost_breakdown nights people use_ferry extra_miles rental_daily rental_fees_pct
        lodging_nightly lodging_fees_total gas_price mpg park_fee ferry_total).miles =
      (if use_ferry then (360 : ℚ) else 420) + extra_miles ∧
    (cost_breakdown nights people false extra_miles rental_daily rental_fees_pct
        lodging_nightly lodging_fees_total gas_price mpg park_fee ferry_total).ferry_total
      = 0 := by
  exact ⟨rfl, rfl⟩

/-- Witness for C6 at the ferry scenario input. -/
theorem trip_miles_formula_and_ferry_off_witness :
    (cost_breakdown 2 2 true 40 55 22 150 60 4.5 30 30 50).miles =
      (if true then (360 : ℚ) else 420) + 40 ∧
    (cost_breakdown 2 2 false 40 55 22 150 60 4.5 30 30 50).ferry_total = 0 :=
  trip_miles_formula_and_ferry_off 2 2 true 40 55 22 150 60 4.5 30 30 50 (by norm_num)

/-- Python `int()` on a float value: truncation toward zero. -/
def truncInt (q : ℚ) : ℤ :=
  if 0 ≤ q then ⌊q⌋ else ⌈q⌉

/-- Python `round(x, 0)`: round to the nearest integer, ties to the even
integer (banker's rounding). -/
def roundHalfEven (q : ℚ) : ℤ :=
  if q - ⌊q⌋ < 1 / 2 then ⌊q⌋
  else if 1 / 2 < q - ⌊q⌋ then ⌊q⌋ + 1
  else if 2 ∣ ⌊q⌋ then ⌊q⌋ else ⌊q⌋ + 1

/-- Python `round(x, 0)` applied to a float returns a float; over `ℚ` that is
the rounded integer cast back. -/
def pyRound0 (q : ℚ) : ℚ :=
  (roundHalfEven q : ℚ)

/-- One row of the `st.session_state.scenarios` data frame in the compare
tab, one field per column; dates are embedded as day numbers. There is no
travelers column. -/
structure ScenarioRow where
  label : String
  start : ℤ
  nights : ℤ
  avis_daily : ℚ
  avis_fees_pct : ℚ
  lodging_nightly : ℚ
  lodging_fees : ℚ
  use_ferry : Bool
  ferry_total : ℚ
  extra_miles : ℚ
  gas : ℚ
  mpg : ℚ
  park_fee : ℚ

/-- One entry of the `results` list built in the compare tab: the formatted
`dates` string is embedded as the pair of day numbers it renders. -/
structure ResultRow where
  label : String
  date_start : ℤ
  date_end : ℤ
  miles : ℤ
  total : ℚ
  per_person : ℚ

/-- The body of the compare tab's results loop (app.py): calls
`cost_breakdown` with `people = 2`, truncates miles with `int(...)` and
rounds `total` and `per_person` with `round(..., 0)`. -/
def result_row (r : ScenarioRow) : ResultRow :=
  let endDate : ℤ := r.start + r.nights
  let b := cost_breakdown r.nights 2 r.use_ferry r.extra_miles r.avis_daily r.avis_fees_pct
    r.lodging_nightly r.lodging_fees r.gas r.mpg r.park_fee r.ferry_total
  { label := r.label
    date_start := r.start
    date_end := endDate
    miles := truncInt b.miles
    total := pyRound0 (b.total / 1)
    per_person := pyRound0 b.per_person }

/-- The compare tab's results loop over the whole scenarios frame. -/
def compare_rows (df : List ScenarioRow) : List ResultRow :=
  df.map result_row

/-- `pd.DataFrame(results).sort_values("total")` with the default
`kind='quicksort'`: pandas guarantees a permutation of the rows that is
ascending in the `total` column, and nothing about the order of tied rows
(the default kind is not a stable sort), so we embed the call as this
relation between input rows and possible outputs. -/
def sort_values_total (inp out : List ResultRow) : Prop :=
  List.Perm inp out ∧ List.Pairwise (fun a b : ResultRow => a.total ≤ b.total) out

/-- The whole compare pipeline: build the result rows, then sort by the
`total` column. -/
def compare_rel (df : List ScenarioRow) (out : List ResultRow) : Prop :=
  sort_values_total (compare_rows df) out

/-- The comparator always has at least one legal output: sorting the built
rows by the rounded total with a mergesort. Helper for the claims below. -/
theorem compare_rel_total (df : List ScenarioRow) :
    ∃ out, compare_rel df out := by
  refine ⟨(compare_rows df).mergeSort (fun a b => decide (a.total ≤ b.total)), ?_, ?_⟩
  · exact (List.mergeSort_perm _ _).symm
  · have h := @List.sorted_mergeSort ResultRow (fun a b => decide (a.total ≤ b.total))
      (fun a b c hab hbc => by
        simp only [decide_eq_true_eq] at hab hbc ⊢
        exact le_trans hab hbc)
      (fun a b => by
        simp only [Bool.or_eq_true, decide_eq_true_eq]
        exact le_total a.total b.total)
      (compare_rows df)
    refine h.imp ?_
    intro a b hab
    simpa using hab

/-- Claim C7: every comparator row is computed with the traveler count fixed
at 2 — its `per_person` field is the breakdown total divided by 2 and then
rounded — whatever the scenario holds (`ScenarioRow` carries no travelers
field). -/
theorem comparator_per_person_fixed_two (r : ScenarioRow) :
    (result_row r).per_person =
      pyRound0 ((cost_breakdown r.nights 2 r.use_ferry r.extra_miles r.avis_daily
        r.avis_fees_pct r.lodging_nightly r.lodging_fees r.gas r.mpg r.park_fee
        r.ferry_total).total / 2) := by
  simp [result_row, cost_breakdown]

/-- Witness for C7 at a concrete scenario row. -/
theorem comparator_per_person_fixed_two_witness :
    (result_row ⟨"A", 0, 2, 55, 22, 150, 60, true, 50, 40, 4.5, 30, 30⟩).per_person =
      pyRound0 ((cost_breakdown 2 2 true 40 55 22 150 60 4.5 30 30 50).total / 2) :=
  comparator_per_person_fixed_two ⟨"A", 0, 2, 55, 22, 150, 60, true, 50, 40, 4.5, 30, 30⟩

/-- Claim C8: each comparator row reports miles truncated to an integer and
total and per-person rounded to zero decimals, and every legal output of the
sort is ascending in the rounded `total` column (the sort key is the rounded
value, not the exact one); the sort always has a legal output. -/
theorem comparator_rounded_fields_and_sort_key :
    (∀ r : ScenarioRow,
      (result_row r).miles =
        truncInt (cost_breakdown r.nights 2 r.use_ferry r.extra_miles r.avis_daily
          r.avis_fees_pct r.lodging_nightly r.lodging_fees r.gas r.mpg r.park_fee
          r.ferry_total).miles ∧
      (result_row r).total =
        pyRound0 (cost_breakdown r.nights 2 r.use_ferry r.extra_miles r.avis_daily
          r.avis_fees_pct r.lodging_nightly r.lodging_fees r.gas r.mpg r.park_fee
          r.ferry_total).total ∧
      (result_row r).per_person =
        pyRound0 (cost_breakdown r.nights 2 r.use_ferry r.extra_miles r.avis_daily
          r.avis_fees_pct r.lodging_nightly r.lodging_fees r.gas r.mpg r.park_fee
          r.ferry_total).per_person) ∧
    (∀ (df : List ScenarioRow) (out : List ResultRow), compare_rel df out →
      List.Pairwise (fun a b : ResultRow => a.total ≤ b.total) out) ∧
    (∀ df : List ScenarioRow, ∃ out, compare_rel df out) := by
  refine ⟨?_, ?_, compare_rel_total⟩
  · intro r
    refine ⟨rfl, ?_, rfl⟩
    simp [result_row]
  · intro df out h
    exact h.2

/-- Witness for C8's sortedness part at a concrete one-scenario frame. -/
theorem comparator_rounded_fields_and_sort_key_witness :
    List.Pairwise (fun a b : ResultRow => a.total ≤ b.total)
      (compare_rows [⟨"A", 0, 2, 55, 22, 150, 60, true, 50, 40, 4.5, 30, 30⟩]) :=
  comparator_rounded_fields_and_sort_key.2.1 _ _
    ⟨List.Perm.refl _, by simp [compare_rows]⟩

/-- Claim C9: the empty scenario collection yields exactly the empty output;
this is a defined result, not an error. -/
theorem comparator_empty (out : List ResultRow) :
    compare_rel [] out ↔ out = [] := by
  constructor
  · rintro ⟨hperm, -⟩
    exact hperm.symm.eq_nil
  · rintro rfl
    exact ⟨List.Perm.refl _, List.Pairwise.nil⟩

/-- Witness for C9 at the empty output. -/
theorem comparator_empty_witness :
    compare_rel [] [] ↔ ([] : List ResultRow) = [] :=
  comparator_empty []

/-- Greedy match of up to `n` leading decimal digits, returning the match and
the remainder; embeds the bounded digit repetitions of the smart-paste
regex. -/
def grabDigitsUpTo : ℕ → List Char → List Char × List Char
  | 0, cs => ([], cs)
  | _ + 1, [] => ([], [])
  | n + 1, c :: rest =>
    if c.isDigit then
      let p := grabDigitsUpTo n rest
      (c :: p.1, p.2)
    else ([], c :: rest)

/-- Greedy match of zero or more comma-plus-three-digit groups of the
smart-paste regex. -/
def grabCommaGroups : List Char → List Char × List Char
  | ',' :: a :: b :: c :: rest =>
    if a.isDigit && b.isDigit && c.isDigit then
      let p := grabCommaGroups rest
      (',' :: a :: b :: c :: p.1, p.2)
    else ([], ',' :: a :: b :: c :: rest)
  | cs => ([], cs)

/-- Optional greedy match of a decimal point followed by one or two digits
(the fractional part of the smart-paste regex). -/
def grabFrac : List Char → List Char × List Char
  | '.' :: a :: b :: rest =>
    if a.isDigit then
      if b.isDigit then (['.', a, b], rest) else (['.', a], b :: rest)
    else ([], '.' :: a :: b :: rest)
  | ['.', a] =>
    if a.isDigit then (['.', a], []) else ([], ['.', a])
  | cs => ([], cs)

/-- First alternative of the capture group: one to three digits, comma
groups, optional fraction. -/
def matchAltA (cs : List Char) : Option (List Char × List Char) :=
  let d := grabDigitsUpTo 3 cs
  if d.1 = [] then none
  else
    let g := grabCommaGroups d.2
    let f := grabFrac g.2
    some (d.1 ++ g.1 ++ f.1, f.2)

/-- Second alternative of the capture group: one or more digits and an
optional fraction (tried only when the first alternative fails, as the
Python regex engine does). -/
def matchAltB (cs : List Char) : Option (List Char × List Char) :=
  let d := cs.takeWhile Char.isDigit
  if d = [] then none
  else
    let f := grabFrac (cs.dropWhile Char.isDigit)
    some (d ++ f.1, f.2)

/-- The capture group of the smart-paste regex: first alternative preferred. -/
def matchGroup (cs : List Char) : Option (List Char × List Char) :=
  match matchAltA cs with
  | some r => some r
  | none => matchAltB cs

/-- One scan step per unit of fuel: at a dollar sign, skip whitespace and try
the capture group; on success emit the captured token and resume after the
match, otherwise move one character forward. -/
def findAmountsGo : ℕ → List Char → List String
  | 0, _ => []
  | _ + 1, [] => []
  | n + 1, c :: rest =>
    if c = '$' then
      match matchGroup (rest.dropWhile Char.isWhitespace) with
      | some p => String.mk p.1 :: findAmountsGo n p.2
      | none => findAmountsGo n rest
    else findAmountsGo n rest

/-- `re.findall` of the dollar-amount pattern over the pasted text (app.py
smart-paste block): left-to-right non-overlapping matches. The fuel is the
text length, enough because every scan step consumes at least one
character. -/
def findAmounts (s : String) : List String :=
  findAmountsGo s.length s.data

/-- Value of a digit-only character list, `none` on any non-digit; the empty
list maps to 0 so the integer and fractional parts can each be empty as long
as the other is not. -/
def decDigitsVal (cs : List Char) : Option ℕ :=
  cs.foldl
    (fun acc c =>
      match acc with
      | none => none
      | some n => if c.isDigit then some (10 * n + (c.toNat - 48)) else none)
    (some 0)

/-- Python `float(...)` on the comma-stripped token: an optional integer part
and an optional fractional part around at most one decimal point, at least
one digit overall; anything else fails. -/
def parseFloatQ (cs : List Char) : Option ℚ :=
  match cs.splitOn '.' with
  | [ip] =>
    if ip = [] then none
    else (decDigitsVal ip).map fun n => (n : ℚ)
  | [ip, fp] =>
    if ip = [] ∧ fp = [] then none
    else
      match decDigitsVal ip, decDigitsVal fp with
      | some n, some m => some ((n : ℚ) + (m : ℚ) / 10 ^ fp.length)
      | _, _ => none
  | _ => none

/-- `float(a.replace(",", ""))` (app.py): strip the commas, parse as a
decimal number. -/
def parse_amount (a : String) : Option ℚ :=
  parseFloatQ (a.data.filter (fun c => c ≠ ','))

/-- The accumulation loop of the smart-paste block (app.py): parse each
token, silently skip failures, append a parsed value only when it is not
already collected. -/
def collectVals : List String → List ℚ → List ℚ
  | [], vals => vals
  | a :: rest, vals =>
    match parse_amount a with
    | some v => if v ∈ vals then collectVals rest vals else collectVals rest (vals ++ [v])
    | none => collectVals rest vals

/-- The whole smart-paste extraction (app.py): find the dollar tokens, parse
and deduplicate them, sort descending (`sorted(vals, reverse=True)`), keep
the first 10. -/
def smart_paste_vals (s : String) : List ℚ :=
  (List.mergeSort (collectVals (findAmounts s) []) (fun a b => decide (b ≤ a))).take 10

/-- The collected values are duplicate-free when the accumulator is. Helper
for the extraction claim. -/
theorem collectVals_nodup (toks : List String) (vals : List ℚ) (h : vals.Nodup) :
    (collectVals toks vals).Nodup := by
  induction toks generalizing vals with
  | nil => simpa [collectVals] using h
  | cons a rest ih =>
    cases hp : parse_amount a with
    | none => simpa [collectVals, hp] using ih vals h
    | some v =>
      by_cases hv : v ∈ vals
      · simpa [collectVals, hp, hv] using ih vals h
      · have hnd : (vals ++ [v]).Nodup := by
          simp [List.nodup_append, h, hv]
        simpa [collectVals, hp, hv] using ih _ hnd

/-- Claim C10: for every pasted text the extraction returns at most 10
values, sorted descending and duplicate-free; and a token whose parse fails
is silently skipped by the accumulation loop (no error, no contribution). -/
theorem smart_paste_extraction :
    (∀ s : String,
      (smart_paste_vals s).length ≤ 10 ∧
      List.Pairwise (fun a b : ℚ => b ≤ a) (smart_paste_vals s) ∧
      (smart_paste_vals s).Nodup) ∧
    (∀ (a : String) (rest : List String) (vals : List ℚ), parse_amount a = none →
      collectVals (a :: rest) vals = collectVals rest vals) := by
  constructor
  · intro s
    refine ⟨List.length_take_le _ _, ?_, ?_⟩
    · refine List.Pairwise.sublist (List.take_sublist _ _) ?_
      have h := @List.sorted_mergeSort ℚ (fun a b => decide (b ≤ a))
        (fun a b c hab hbc => by
          simp only [decide_eq_true_eq] at hab hbc ⊢
          exact le_trans hbc hab)
        (fun a b => by
          simp only [Bool.or_eq_true, decide_eq_true_eq]
          exact le_total b a)
        (collectVals (findAmounts s) [])
      refine h.imp ?_
      intro a b hab
      simpa using hab
    · refine List.Nodup.sublist (List.take_sublist _ _) ?_
      exact (List.mergeSort_perm _ _).symm.nodup
        (collectVals_nodup _ _ List.nodup_nil)
  · intro a rest vals h
    simp [collectVals, h]

/-- Witness for C10's skip part at the unparsable token "1.2.3" (two decimal
points), and for the bound at the empty text. -/
theorem smart_paste_extraction_witness :
    collectVals ["1.2.3"] [] = collectVals [] [] ∧
    (smart_paste_vals "").length ≤ 10 :=
  ⟨smart_paste_extraction.2 "1.2.3" [] [] (by rfl), (smart_paste_extraction.1 "").1⟩

end OlympicTrip
